import Mathlib

/-!
Verification of the claims about the `can-i-build-it-2.0` PDF processors
(`src/server/simple-pdf-processor.py` and `src/server/langchain-pdf-rag.py`)
over a shallow embedding of their code.  Pure helpers become Lean functions;
the effectful methods become functions threading an explicit environment
(network fetch, PDF decoder, completion service), the set of staged temporary
files, and an event trace recording which external calls were made.
-/

/-- JSON-like values, for modelling the CLI responses built by `main`. -/
inductive JVal where
  | str : String → JVal
  | bool : Bool → JVal
  | null : JVal
deriving DecidableEq, Repr

/-- Kinds of failure the code catches and logs (spec taxonomy §7). -/
inductive ErrKind where
  | fetchErr
  | decodeErr
  | indexErr
  | llmErr
  | nameErr
deriving DecidableEq, Repr

/-- Observable events of one processing run: network fetches, temporary-file
writes and deletions, decoder invocations, completion-service invocations
(carrying the evidence text placed in the prompt), index builds, and the
error messages printed by `except` handlers. -/
inductive Event where
  | fetchCall (url : String)
  | tmpWrite (name : Nat)
  | tmpDelete (name : Nat)
  | decodeCall (name : Nat)
  | llmCall (evidence : String)
  | indexBuild (zone : String)
  | logError (k : ErrKind)
deriving DecidableEq, Repr

/-- Raw fetched document bytes (`response.content`). -/
abbrev RawDoc := List Nat

/-- The external collaborators, configuration-injected: `fetch url` is
`requests.get(url, timeout=30)` + `raise_for_status` (`none` = HTTP or
transport error raised); `decode raw` is the PDF decoder (`PyPDFLoader(...).load()`),
yielding the ordered page texts or `none` when it raises; `llm prompt` is
the completion service (`self.llm.invoke(prompt)`), `none` when it raises. -/
structure Env where
  fetch : String → Option RawDoc
  decode : RawDoc → Option (List String)
  llm : String → Option String

/-- `SimplePDFProcessor.get_zone_pdf_urls` (src/server/simple-pdf-processor.py:37-66):
the literal zone-code → URL dictionary. -/
def simple_get_zone_pdf_urls : String → Option String := fun zc =>
  match zc with
  | "H1" => some "https://unitaryplan.aucklandcouncil.govt.nz/images/Auckland%20Unitary%20Plan%20Operative/Chapter%20H%20Zones/H1%20Residential%20-%20Large%20Lot%20Zone.pdf"
  | "H2" => some "https://unitaryplan.aucklandcouncil.govt.nz/images/Auckland%20Unitary%20Plan%20Operative/Chapter%20H%20Zones/H2%20Residential%20-%20Rural%20and%20Coastal%20Settlement%20Zone.pdf"
  | "H3" => some "https://unitaryplan.aucklandcouncil.govt.nz/images/Auckland%20Unitary%20Plan%20Operative/Chapter%20H%20Zones/H3%20Residential%20-%20Single%20House%20Zone.pdf"
  | "H4" => some "https://unitaryplan.aucklandcouncil.govt.nz/images/Auckland%20Unitary%20Plan%20Operative/Chapter%20H%20Zones/H4%20Residential%20-%20Mixed%20Housing%20Suburban%20Zone.pdf"
  | "H5" => some "https://unitaryplan.aucklandcouncil.govt.nz/images/Auckland%20Unitary%20Plan%20Operative/Chapter%20H%20Zones/H5%20Residential%20-%20Mixed%20Housing%20Urban%20Zone.pdf"
  | "H6" => some "https://unitaryplan.aucklandcouncil.govt.nz/images/Auckland%20Unitary%20Plan%20Operative/Chapter%20H%20Zones/H6%20Residential%20-%20Terrace%20Housing%20and%20Apartment%20Buildings%20Zone.pdf"
  | "H7" => some "https://unitaryplan.aucklandcouncil.govt.nz/images/Auckland%20Unitary%20Plan%20Operative/Chapter%20H%20Zones/H7%20Open%20Space%20zones.pdf"
  | "H8" => some "https://unitaryplan.aucklandcouncil.govt.nz/images/Auckland%20Unitary%20Plan%20Operative/Chapter%20H%20Zones/H8%20Business%20-%20City%20Centre%20Zone.pdf"
  | "H9" => some "https://unitaryplan.aucklandcouncil.govt.nz/images/Auckland%20Unitary%20Plan%20Operative/Chapter%20H%20Zones/H9%20Business%20-%20Metropolitan%20Centre%20Zone.pdf"
  | "H10" => some "https://unitaryplan.aucklandcouncil.govt.nz/images/Auckland%20Unitary%20Plan%20Operative/Chapter%20H%20Zones/H10%20Business%20-%20Town%20Centre%20Zone.pdf"
  | "H11" => some "https://unitaryplan.aucklandcouncil.govt.nz/images/Auckland%20Unitary%20Plan%20Operative/Chapter%20H%20Zones/H11%20Business%20-%20Local%20Centre%20Zone.pdf"
  | "H12" => some "https://unitaryplan.aucklandcouncil.govt.nz/images/Auckland%20Unitary%20Plan%20Operative/Chapter%20H%20Zones/H12%20Business%20-%20Neighbourhood%20Centre%20Zone.pdf"
  | "H13" => some "https://unitaryplan.aucklandcouncil.govt.nz/images/Auckland%20Unitary%20Plan%20Operative/Chapter%20H%20Zones/H13%20Business%20-%20Mixed%20Use%20Zone.pdf"
  | "H14" => some "https://unitaryplan.aucklandcouncil.govt.nz/images/Auckland%20Unitary%20Plan%20Operative/Chapter%20H%20Zones/H14%20Business%20-%20General%20Business%20Zone.pdf"
  | "H15" => some "https://unitaryplan.aucklandcouncil.govt.nz/images/Auckland%20Unitary%20Plan%20Operative/Chapter%20H%20Zones/H15%20Business%20-%20Business%20Park%20Zone.pdf"
  | "H16" => some "https://unitaryplan.aucklandcouncil.govt.nz/images/Auckland%20Unitary%20Plan%20Operative/Chapter%20H%20Zones/H16%20Business%20-%20Heavy%20Industry%20Zone.pdf"
  | "H17" => some "https://unitaryplan.aucklandcouncil.govt.nz/images/Auckland%20Unitary%20Plan%20Operative/Chapter%20H%20Zones/H17%20Business%20-%20Light%20Industry%20Zone.pdf"
  | "H18" => some "https://unitaryplan.aucklandcouncil.govt.nz/images/Auckland%20Unitary%20Plan%20Operative/Chapter%20H%20Zones/H18%20Future%20Urban%20Zone.pdf"
  | "H19" => some "https://unitaryplan.aucklandcouncil.govt.nz/images/Auckland%20Unitary%20Plan%20Operative/Chapter%20H%20Zones/H19%20Rural%20zones.pdf"
  | "D17" => some "https://unitaryplan.aucklandcouncil.govt.nz/images/Auckland%20Unitary%20Plan%20Operative/Chapter%20D%20Overlays/3.%20Built%20Heritage%20and%20Character/D17%20Historic%20Heritage%20Overlay.pdf"
  | "D18" => some "https://unitaryplan.aucklandcouncil.govt.nz/images/Auckland%20Unitary%20Plan%20Operative/Chapter%20D%20Overlays/3.%20Built%20Heritage%20and%20Character/D18%20Special%20Character%20Areas%20Overlay%20-%20Residential%20and%20Business.pdf"
  | "D19" => some "https://unitaryplan.aucklandcouncil.govt.nz/images/Auckland%20Unitary%20Plan%20Operative/Chapter%20D%20Overlays/3.%20Built%20Heritage%20and%20Character/D19%20Auckland%20War%20Memorial%20Museum%20Viewshaft%20Overlay.pdf"
  | "D20A" => some "https://unitaryplan.aucklandcouncil.govt.nz/images/Auckland%20Unitary%20Plan%20Operative/Chapter%20D%20Overlays/3.%20Built%20Heritage%20and%20Character/D20A%20Stockade%20Hill%20Viewshaft%20Overlay.pdf"
  | _ => none

/-- `AucklandCouncilPDFProcessor.get_zone_pdf_urls` (src/server/langchain-pdf-rag.py:55-71):
the literal zone-code → URL dictionary of the retrieval processor. -/
def akl_get_zone_pdf_urls : String → Option String := fun zc =>
  match zc with
  | "H3" => some "https://unitaryplan.aucklandcouncil.govt.nz/images/Auckland%20Unitary%20Plan%20Operative/Chapter%20H%20Zones/H3%20Residential%20-%20Single%20House%20Zone.pdf"
  | "H4" => some "https://unitaryplan.aucklandcouncil.govt.nz/images/Auckland%20Unitary%20Plan%20Operative/Chapter%20H%20Zones/H4%20Residential%20-%20Mixed%20Housing%20Suburban%20Zone.pdf"
  | "H5" => some "https://unitaryplan.aucklandcouncil.govt.nz/images/Auckland%20Unitary%20Plan%20Operative/Chapter%20H%20Zones/H5%20Residential%20-%20Mixed%20Housing%20Urban%20Zone.pdf"
  | "H6" => some "https://unitaryplan.aucklandcouncil.govt.nz/images/Auckland%20Unitary%20Plan%20Operative/Chapter%20H%20Zones/H6%20Residential%20-%20Terrace%20Housing%20and%20Apartment%20Buildings%20Zone.pdf"
  | "H7" => some "https://unitaryplan.aucklandcouncil.govt.nz/images/Auckland%20Unitary%20Plan%20Operative/Chapter%20H%20Zones/H7%20Residential%20-%20Apartment%20Buildings%20Zone.pdf"
  | "H8" => some "https://unitaryplan.aucklandcouncil.govt.nz/images/Auckland%20Unitary%20Plan%20Operative/Chapter%20H%20Zones/H8%20Residential%20-%20Large%20Lot%20Zone.pdf"
  | "H9" => some "https://unitaryplan.aucklandcouncil.govt.nz/images/Auckland%20Unitary%20Plan%20Operative/Chapter%20H%20Zones/H9%20Residential%20-%20Rural%20and%20Coastal%20Settlement%20Zone.pdf"
  | "I1" => some "https://unitaryplan.aucklandcouncil.govt.nz/images/Auckland%20Unitary%20Plan%20Operative/Chapter%20I%20Zones/I1%20Business%20-%20City%20Centre%20Zone.pdf"
  | "I2" => some "https://unitaryplan.aucklandcouncil.govt.nz/images/Auckland%20Unitary%20Plan%20Operative/Chapter%20I%20Zones/I2%20Business%20-%20Metropolitan%20Centre%20Zone.pdf"
  | "I3" => some "https://unitaryplan.aucklandcouncil.govt.nz/images/Auckland%20Unitary%20Plan%20Operative/Chapter%20I%20Zones/I3%20Business%20-%20Town%20Centre%20Zone.pdf"
  | "I4" => some "https://unitaryplan.aucklandcouncil.govt.nz/images/Auckland%20Unitary%20Plan%20Operative/Chapter%20I%20Zones/I4%20Business%20-%20Local%20Centre%20Zone.pdf"
  | _ => none

/-- `"\n".join(pages)` — the single-newline concatenation of the ordered
page texts (src/server/simple-pdf-processor.py:90). -/
def joinPages : List String → String
  | [] => ""
  | [p] => p
  | p :: ps => p ++ "\n" ++ joinPages ps

/-- Python truncation `pdf_text[:8000]` (src/server/simple-pdf-processor.py:112):
the first 8000 characters of the extracted text. -/
def truncateText (t : String) : String := String.mk (t.data.take 8000)

/-- The f-string prompt of `SimplePDFProcessor.query_zone_with_ai`
(src/server/simple-pdf-processor.py:115-122), with the zone code, the
question and the (truncated) document text substituted in. -/
def buildPrompt (zone_code query pdf_text : String) : String :=
  "\nBased on the following Auckland Council planning document for zone "
    ++ zone_code ++ ", please answer this question: " ++ query
    ++ "\n\nPlanning Document Content:\n" ++ pdf_text
    ++ "\n\nPlease provide specific information from the document, including exact measurements, percentages, and requirements where available. Focus on building rules, height restrictions, site coverage, setbacks, and consent requirements.\n"

/-- `SimplePDFProcessor.extract_pdf_text` (src/server/simple-pdf-processor.py:68-95).
`available` is `self.available`; `tmps` the set of staged temporary files
before the call (labelled by creation order).  The staged file is written
with `delete=False` and `os.unlink` runs only after the decoder call, so a
decoder exception jumps to the `except` handler with the file still on disk. -/
def extract_pdf_text (env : Env) (available : Bool) (tmps : List Nat) (url : String) :
    Option String × List Nat × List Event :=
  if !available then (none, tmps, [])
  else
    match env.fetch url with
    | none => (none, tmps, [.fetchCall url, .logError .fetchErr])
    | some raw =>
      let name := tmps.length
      let tmps1 := tmps ++ [name]
      match env.decode raw with
      | none => (none, tmps1,
          [.fetchCall url, .tmpWrite name, .decodeCall name, .logError .decodeErr])
      | some pages =>
        let tmps2 := tmps1.filter (fun m => m ≠ name)
        (some (joinPages pages), tmps2,
          [.fetchCall url, .tmpWrite name, .decodeCall name, .tmpDelete name])

/-- `SimplePDFProcessor.query_zone_with_ai` (src/server/simple-pdf-processor.py:97-129).
`hasLLM` is the truthiness of `self.llm`.  `if not pdf_text` covers both the
`None` result of a failed extraction and the empty string; the surviving text
is truncated to 8000 characters before being embedded in the prompt. -/
def query_zone_with_ai (env : Env) (available hasLLM : Bool) (tmps : List Nat)
    (zone_code query : String) : Option String × List Nat × List Event :=
  if !hasLLM then (none, tmps, [])
  else
    match simple_get_zone_pdf_urls zone_code with
    | none => (none, tmps, [])
    | some url =>
      match extract_pdf_text env available tmps url with
      | (none, tmps1, evs) => (none, tmps1, evs)
      | (some pdf_text, tmps1, evs) =>
        if pdf_text = "" then (none, tmps1, evs)
        else
          let evidence := truncateText pdf_text
          let prompt := buildPrompt zone_code query evidence
          match env.llm prompt with
          | none => (none, tmps1, evs ++ [.llmCall evidence, .logError .llmErr])
          | some resp => (some resp, tmps1, evs ++ [.llmCall evidence])

/-- The evidence texts handed to the completion service during a run. -/
def llmEvidences (evs : List Event) : List String :=
  evs.filterMap (fun e => match e with | .llmCall s => some s | _ => none)

/-- The decoder invocations of a run. -/
def decodeCalls (evs : List Event) : List Nat :=
  evs.filterMap (fun e => match e with | .decodeCall n => some n | _ => none)

/-- Modelled from the spec: the text splitter.  `RecursiveCharacterTextSplitter`
is constructed at src/server/langchain-pdf-rag.py:36-40 with `chunk_size=1000`
and `chunk_overlap=200`, but that name is never imported or defined anywhere
in the repository, so the splitting algorithm itself is missing from the
source.  Following §4.4 of the spec: "split ExtractedText into Chunks of
fixed length L (default 1000 characters) with overlap O (default 200
characters) between consecutive chunks — the split must guarantee full
coverage and is deterministic for identical input text".  Each chunk is the
next L characters; consecutive chunks start L−O characters apart.  The
`L ≤ O` disjunct only guards termination and never holds at the configured
parameters. -/
def splitText (L O : Nat) (t : List Char) : List (List Char) :=
  if h : t.length ≤ L ∨ L ≤ O then [t]
  else t.take L :: splitText L O (t.drop (L - O))
termination_by t.length
decreasing_by
  simp only [not_or, not_le] at h
  simp only [List.length_drop]
  omega

/-- Removing the overlap from every chunk after the first and concatenating:
the reconstruction the claim about lossless chunking speaks of. -/
def reconstructChunks (O : Nat) : List (List Char) → List Char
  | [] => []
  | c :: rest => c ++ (rest.map (fun d => d.drop O)).flatten

/-- The mutable attributes of an `AucklandCouncilPDFProcessor` object that
the modelled methods read: `self.available`, the truthiness of `self.llm`,
the splitter configuration (`none` when the `text_splitter` attribute was
never assigned, as after every real `__init__`), and the zone codes cached
in `self.vector_stores`. -/
structure AklState where
  available : Bool
  hasLLM : Bool
  text_splitter : Option (Nat × Nat)
  vector_stores : List String
deriving DecidableEq, Repr

/-- `AucklandCouncilPDFProcessor.__init__` (src/server/langchain-pdf-rag.py:27-53).
When the import at lines 13-20 failed, `PyPDFLoader` is an undefined name, so
line 29 raises `NameError` out of the constructor.  When the import
succeeded, `available` is first set to `True`, but the very first statement
of the `try` block references `RecursiveCharacterTextSplitter` — a name never
imported or defined in the module — so `NameError` is raised immediately,
caught by the handler at lines 51-53, and `available` is set to `False`;
`text_splitter`, `pdf_content` and `llm` are never assigned (the API key is
never used). -/
def akl_init (langchainImported : Bool) (_openai_api_key : Option String) :
    Except ErrKind AklState :=
  if !langchainImported then .error .nameErr
  else .ok { available := false, hasLLM := false, text_splitter := none, vector_stores := [] }

/-- `AucklandCouncilPDFProcessor.load_pdf_from_url` (src/server/langchain-pdf-rag.py:73-103):
download to a staged temporary file, decode, unlink, split into chunks.  Any
exception is caught and an empty document list returned.  When the
`text_splitter` attribute is missing (every state `__init__` can produce),
line 97 raises `AttributeError` after the unlink, caught by the same handler. -/
def load_pdf_from_url (env : Env) (st : AklState) (tmps : List Nat) (url : String) :
    List (List Char) × List Nat × List Event :=
  if !st.available then ([], tmps, [])
  else
    match env.fetch url with
    | none => ([], tmps, [.fetchCall url, .logError .fetchErr])
    | some raw =>
      let name := tmps.length
      let tmps1 := tmps ++ [name]
      match env.decode raw with
      | none => ([], tmps1,
          [.fetchCall url, .tmpWrite name, .decodeCall name, .logError .decodeErr])
      | some pages =>
        let tmps2 := tmps1.filter (fun m => m ≠ name)
        match st.text_splitter with
        | none => ([], tmps2,
            [.fetchCall url, .tmpWrite name, .decodeCall name, .tmpDelete name,
              .logError .nameErr])
        | some (L, O) =>
          ((pages.map (fun p => splitText L O p.data)).flatten, tmps2,
            [.fetchCall url, .tmpWrite name, .decodeCall name, .tmpDelete name])

/-- `AucklandCouncilPDFProcessor.create_vector_store` (src/server/langchain-pdf-rag.py:105-135).
After the availability, cache and registry checks and a successful document
load, the `try` block at lines 127-132 evaluates `FAISS.from_documents` —
but `FAISS` is never imported or defined in the module, so `NameError` is
raised at once, caught by the handler at lines 133-135, logged, and `False`
returned: index construction always fails. -/
def create_vector_store (env : Env) (st : AklState) (tmps : List Nat) (zone_code : String) :
    Bool × AklState × List Nat × List Event :=
  if !st.available then (false, st, tmps, [])
  else if zone_code ∈ st.vector_stores then (true, st, tmps, [])
  else
    match akl_get_zone_pdf_urls zone_code with
    | none => (false, st, tmps, [])
    | some url =>
      match load_pdf_from_url env st tmps url with
      | (documents, tmps1, evs) =>
        if documents = [] then (false, st, tmps1, evs)
        else (false, st, tmps1, evs ++ [.logError .indexErr])

/-- `AucklandCouncilPDFProcessor.query_zone_planning_rules`
(src/server/langchain-pdf-rag.py:137-163).  `not self.available or not
self.llm` short-circuits, so the missing `llm` attribute of a really
constructed object is never read.  Past the vector-store step, the `try`
block at lines 148-159 references `RetrievalQA` — never imported or defined
in the module — so `NameError` is raised, caught at lines 161-163, and `None`
returned: every path of this method returns `None`. -/
def query_zone_planning_rules (env : Env) (st : AklState) (tmps : List Nat)
    (zone_code query : String) : Option String × AklState × List Nat × List Event :=
  if !st.available || !st.hasLLM then (none, st, tmps, [])
  else
    let r :=
      if zone_code ∈ st.vector_stores then (true, st, tmps, [])
      else create_vector_store env st tmps zone_code
    match r with
    | (ok, st1, tmps1, evs1) =>
      if !ok then (none, st1, tmps1, evs1)
      else (none, st1, tmps1, evs1 ++ [.logError .nameErr])

/-- Concrete environment where the fetch succeeds and the PDF decoder raises. -/
def envDecodeFail : Env :=
  { fetch := fun _ => some [], decode := fun _ => none, llm := fun _ => none }

/-- Concrete environment where every stage succeeds on a small document. -/
def envOk : Env :=
  { fetch := fun _ => some []
    decode := fun _ => some ["Maximum height: 8 metres"]
    llm := fun _ => some "The maximum height is 8 metres." }

/-- Concrete environment where the network fetch fails (HTTP error). -/
def envFetchFail : Env :=
  { fetch := fun _ => none, decode := fun _ => some [], llm := fun _ => some "x" }

/-- Concrete environment where the decoder yields a document with no pages,
so the extracted text is empty. -/
def envEmptyDoc : Env :=
  { fetch := fun _ => some [], decode := fun _ => some [], llm := fun _ => some "x" }

/-- Python truthiness of the query result: `None` and the empty string are
falsy, every other string truthy. -/
def pyTruthy : Option String → Bool
  | none => false
  | some s => !(s == "")

/-- The response object of `main` in src/server/simple-pdf-processor.py:170-176:
a dictionary that always carries the keys `success`, `zone_code`, `query`,
`result` and `error`, with `result` set to `None` (JSON `null`) on failure
and `error` set to `None` on success (`"success": result is not None`). -/
def simple_main_response (zone_code query : String) (result : Option String) :
    List (String × JVal) :=
  [("success", .bool result.isSome),
   ("zone_code", .str zone_code),
   ("query", .str query),
   ("result", match result with | some s => .str s | none => .null),
   ("error", match result with | some _ => .null | none => .str "Failed to process query")]

/-- The response object of `main` in src/server/langchain-pdf-rag.py:215-228:
`if result:` selects the success shape (with `result`) for a truthy result
and the failure shape (with `error`) otherwise. -/
def akl_main_response (zone_code query : String) (result : Option String) :
    List (String × JVal) :=
  if pyTruthy result then
    [("success", .bool true),
     ("zone_code", .str zone_code),
     ("query", .str query),
     ("result", .str (result.getD ""))]
  else
    [("success", .bool false),
     ("zone_code", .str zone_code),
     ("query", .str query),
     ("error", .str "Failed to process query")]

/-- C10: the two processors do not implement the same zone registry: "H7",
"H8" and "H9" map to different URLs in the two dictionaries, "D18" and "H19"
resolve only in `SimplePDFProcessor`'s registry, so the two registry
functions are not extensionally equal. -/
theorem c10_registries_differ :
    simple_get_zone_pdf_urls "H7" ≠ akl_get_zone_pdf_urls "H7"
    ∧ simple_get_zone_pdf_urls "H8" ≠ akl_get_zone_pdf_urls "H8"
    ∧ simple_get_zone_pdf_urls "H9" ≠ akl_get_zone_pdf_urls "H9"
    ∧ (simple_get_zone_pdf_urls "D18").isSome = true
    ∧ akl_get_zone_pdf_urls "D18" = none
    ∧ (simple_get_zone_pdf_urls "H19").isSome = true
    ∧ akl_get_zone_pdf_urls "H19" = none
    ∧ simple_get_zone_pdf_urls ≠ akl_get_zone_pdf_urls := by
  refine ⟨by decide, by decide, by decide, by decide, by decide, by decide, by decide, ?_⟩
  intro hEq
  exact absurd (congrFun hEq "D18") (by decide)

/-- C3: contrary to the claim, the temporary file staged for the PDF decoder
is NOT deleted on the decode-failure exit path of
`SimplePDFProcessor.extract_pdf_text`: `os.unlink` (line 87) runs only after
`loader.load()` (line 84), so when the decoder raises, the `except` handler
returns `None` with the staged file still present — starting with no
temporary files, the call ends with one. -/
theorem c3_tmpfile_leak_on_decode_failure :
    (extract_pdf_text envDecodeFail true [] "u").1 = none
    ∧ (extract_pdf_text envDecodeFail true [] "u").2.1 = [0]
    ∧ ([0] : List Nat) ≠ [] :=
  ⟨rfl, rfl, by decide⟩

/-- C6: if the fetch fails for a registered zone (HTTP error raised by
`raise_for_status`), `query_zone_with_ai` returns `None` (the query ends
failed) with the fetch error caught and logged, and neither the PDF decoder
nor the completion service is invoked. -/
theorem c6_fetch_failure_stops_pipeline (env : Env) (tmps : List Nat)
    (zc q url : String)
    (hzc : simple_get_zone_pdf_urls zc = some url)
    (hf : env.fetch url = none) :
    query_zone_with_ai env true true tmps zc q
      = (none, tmps, [.fetchCall url, .logError .fetchErr])
    ∧ decodeCalls (query_zone_with_ai env true true tmps zc q).2.2 = []
    ∧ llmEvidences (query_zone_with_ai env true true tmps zc q).2.2 = [] := by
  have h1 : query_zone_with_ai env true true tmps zc q
      = (none, tmps, [.fetchCall url, .logError .fetchErr]) := by
    simp [query_zone_with_ai, extract_pdf_text, hzc, hf]
  refine ⟨h1, ?_, ?_⟩ <;> rw [h1] <;> rfl

/-- Witness for C6 at the registered zone "H3" with a failing fetch. -/
theorem c6_witness :
    query_zone_with_ai envFetchFail true true [] "H3" "height rules"
      = (none, [], [.fetchCall "https://unitaryplan.aucklandcouncil.govt.nz/images/Auckland%20Unitary%20Plan%20Operative/Chapter%20H%20Zones/H3%20Residential%20-%20Single%20House%20Zone.pdf", .logError .fetchErr])
    ∧ decodeCalls (query_zone_with_ai envFetchFail true true [] "H3" "height rules").2.2 = []
    ∧ llmEvidences (query_zone_with_ai envFetchFail true true [] "H3" "height rules").2.2 = [] :=
  c6_fetch_failure_stops_pipeline envFetchFail [] "H3" "height rules"
    "https://unitaryplan.aucklandcouncil.govt.nz/images/Auckland%20Unitary%20Plan%20Operative/Chapter%20H%20Zones/H3%20Residential%20-%20Single%20House%20Zone.pdf"
    rfl rfl

/-- C9: a registered zone whose extraction succeeds with an empty text
(`if not pdf_text`) is treated as a failure: `query_zone_with_ai` returns
`None` and the completion service is never invoked. -/
theorem c9_empty_text_no_synthesis (env : Env) (tmps : List Nat)
    (zc q url : String) (raw : RawDoc) (pages : List String)
    (hzc : simple_get_zone_pdf_urls zc = some url)
    (hf : env.fetch url = some raw)
    (hd : env.decode raw = some pages)
    (hempty : joinPages pages = "") :
    (query_zone_with_ai env true true tmps zc q).1 = none
    ∧ llmEvidences (query_zone_with_ai env true true tmps zc q).2.2 = [] := by
  simp [query_zone_with_ai, extract_pdf_text, hzc, hf, hd, hempty, llmEvidences]

/-- Witness for C9: a registered zone whose decoded document has no pages. -/
theorem c9_witness :
    (query_zone_with_ai envEmptyDoc true true [] "H3" "q").1 = none
    ∧ llmEvidences (query_zone_with_ai envEmptyDoc true true [] "H3" "q").2.2 = [] :=
  c9_empty_text_no_synthesis envEmptyDoc [] "H3" "q"
    "https://unitaryplan.aucklandcouncil.govt.nz/images/Auckland%20Unitary%20Plan%20Operative/Chapter%20H%20Zones/H3%20Residential%20-%20Single%20House%20Zone.pdf"
    [] [] rfl rfl rfl rfl

/-- C5: under the truncation strategy, the one evidence text handed to the
completion service is the 8000-character truncation of the extracted text;
its length never exceeds 8000, and when the extracted text is shorter than
8000 characters the evidence is the full text. -/
theorem c5_truncation_bounds (env : Env) (tmps : List Nat)
    (zc q url : String) (raw : RawDoc) (pages : List String)
    (hzc : simple_get_zone_pdf_urls zc = some url)
    (hf : env.fetch url = some raw)
    (hd : env.decode raw = some pages)
    (hne : joinPages pages ≠ "") :
    llmEvidences (query_zone_with_ai env true true tmps zc q).2.2
      = [truncateText (joinPages pages)]
    ∧ (truncateText (joinPages pages)).length ≤ 8000
    ∧ ((joinPages pages).length < 8000
        → truncateText (joinPages pages) = joinPages pages) := by
  refine ⟨?_, ?_, ?_⟩
  · simp only [query_zone_with_ai, extract_pdf_text, hzc, hf, hd, hne]
    simp only [Bool.not_true, if_neg, if_false]
    cases hl : env.llm (buildPrompt zc q (truncateText (joinPages pages))) <;>
      simp [llmEvidences, hl, hne]
  · have : (truncateText (joinPages pages)).length
        = ((joinPages pages).data.take 8000).length := rfl
    rw [this, List.length_take]
    exact Nat.min_le_left _ _
  · intro hlt
    have hle : (joinPages pages).data.length ≤ 8000 := Nat.le_of_lt hlt
    show String.mk ((joinPages pages).data.take 8000) = joinPages pages
    rw [List.take_of_length_le hle]

/-- Witness for C5 on a small concrete document. -/
theorem c5_witness :
    llmEvidences (query_zone_with_ai envOk true true [] "H3" "height").2.2
      = [truncateText (joinPages ["Maximum height: 8 metres"])]
    ∧ (truncateText (joinPages ["Maximum height: 8 metres"])).length ≤ 8000
    ∧ ((joinPages ["Maximum height: 8 metres"]).length < 8000
        → truncateText (joinPages ["Maximum height: 8 metres"])
          = joinPages ["Maximum height: 8 metres"]) :=
  c5_truncation_bounds envOk [] "H3" "height"
    "https://unitaryplan.aucklandcouncil.govt.nz/images/Auckland%20Unitary%20Plan%20Operative/Chapter%20H%20Zones/H3%20Residential%20-%20Single%20House%20Zone.pdf"
    [] ["Maximum height: 8 metres"] rfl rfl rfl (by decide)

/-- The splitter never produces an empty chunk list. -/
theorem splitText_ne_nil (L O : Nat) (t : List Char) : splitText L O t ≠ [] := by
  rw [splitText]
  split <;> simp

/-- C8: every completed construction of `AucklandCouncilPDFProcessor` leaves
`available = False` (its `__init__` body references the undefined name
`RecursiveCharacterTextSplitter`, so its exception handler always runs), and
consequently `query_zone_planning_rules` returns `None` for every
`(zone_code, query)` input — the retrieval pipeline is never reachable. -/
theorem c8_init_always_unavailable (k : Bool) (key : Option String) (st : AklState)
    (env : Env) (tmps : List Nat) (zc q : String)
    (h : akl_init k key = .ok st) :
    st.available = false
    ∧ query_zone_planning_rules env st tmps zc q = (none, st, tmps, []) := by
  cases k with
  | false => simp [akl_init] at h
  | true =>
    simp only [akl_init, Bool.not_true, Bool.false_eq_true, if_false, Except.ok.injEq] at h
    subst h
    exact ⟨rfl, rfl⟩

/-- Witness for C8: the state produced by a successful import-path `__init__`. -/
theorem c8_witness :
    (⟨false, false, none, []⟩ : AklState).available = false
    ∧ query_zone_planning_rules envOk ⟨false, false, none, []⟩ [] "H3" "what can I build"
        = (none, ⟨false, false, none, []⟩, [], []) :=
  c8_init_always_unavailable true (some "key") ⟨false, false, none, []⟩ envOk []
    "H3" "what can I build" rfl

/-- C2: a zone code absent from a processor's registry makes the query fail
with no network fetch: `SimplePDFProcessor.query_zone_with_ai` returns `None`
with an empty trace, and `AucklandCouncilPDFProcessor.create_vector_store`
returns `False` with an empty trace; for a zone code present in the registry
the first external action of the query is a fetch of exactly that zone's
registered URL. -/
theorem c2_unknown_zone_no_fetch (env : Env) (st : AklState) (a hL : Bool)
    (tmps : List Nat) (q zcU zcK urlK : String)
    (h1 : simple_get_zone_pdf_urls zcU = none)
    (h2 : akl_get_zone_pdf_urls zcU = none)
    (h3 : zcU ∉ st.vector_stores)
    (h4 : simple_get_zone_pdf_urls zcK = some urlK) :
    query_zone_with_ai env a hL tmps zcU q = (none, tmps, [])
    ∧ create_vector_store env st tmps zcU = (false, st, tmps, [])
    ∧ ((query_zone_with_ai env true true tmps zcK q).2.2).head?
        = some (.fetchCall urlK) := by
  refine ⟨?_, ?_, ?_⟩
  · cases hL <;> simp [query_zone_with_ai, h1]
  · cases hav : st.available <;> simp [create_vector_store, hav, h2, h3]
  · simp only [query_zone_with_ai, h4, Bool.not_true, if_false]
    cases hf : env.fetch urlK with
    | none => simp [extract_pdf_text, hf]
    | some raw =>
      cases hd : env.decode raw with
      | none => simp [extract_pdf_text, hf, hd]
      | some pages =>
        by_cases hj : joinPages pages = ""
        · simp [extract_pdf_text, hf, hd, hj]
        · simp only [extract_pdf_text, Bool.not_true, if_false, hf, hd, hj]
          cases hl : env.llm (buildPrompt zcK q (truncateText (joinPages pages))) <;>
            simp [hl, hj]

/-- Witness for C2 at the unregistered zone "ZZZ" and the registered zone "H3". -/
theorem c2_witness :
    query_zone_with_ai envOk true true [] "ZZZ" "q" = (none, [], [])
    ∧ create_vector_store envOk ⟨true, true, some (1000, 200), []⟩ [] "ZZZ"
        = (false, ⟨true, true, some (1000, 200), []⟩, [], [])
    ∧ ((query_zone_with_ai envOk true true [] "H3" "q").2.2).head?
        = some (.fetchCall "https://unitaryplan.aucklandcouncil.govt.nz/images/Auckland%20Unitary%20Plan%20Operative/Chapter%20H%20Zones/H3%20Residential%20-%20Single%20House%20Zone.pdf") :=
  c2_unknown_zone_no_fetch envOk ⟨true, true, some (1000, 200), []⟩ true true []
    "q" "ZZZ" "H3"
    "https://unitaryplan.aucklandcouncil.govt.nz/images/Auckland%20Unitary%20Plan%20Operative/Chapter%20H%20Zones/H3%20Residential%20-%20Single%20House%20Zone.pdf"
    rfl rfl (by simp) rfl

/-- C4: when index construction fails during evidence selection — which in
this code happens on every reachable attempt, since `FAISS` is an undefined
name — the failure is caught and logged (the spec's `IndexError`) and
propagated: `create_vector_store` returns `False` and
`query_zone_planning_rules` returns `None` rather than an answer.  No
fallback configuration exists in the code, so the fallback branch of the
claim is never enabled and the "otherwise" branch governs. -/
theorem c4_index_failure_propagates (env : Env) (st : AklState) (tmps : List Nat)
    (zc q url : String) (raw : RawDoc) (pages : List String)
    (h1 : st.available = true) (h2 : st.hasLLM = true)
    (h3 : zc ∉ st.vector_stores)
    (h4 : akl_get_zone_pdf_urls zc = some url)
    (h5 : st.text_splitter = some (1000, 200))
    (h6 : env.fetch url = some raw)
    (h7 : env.decode raw = some pages)
    (h8 : pages ≠ []) :
    (create_vector_store env st tmps zc).1 = false
    ∧ Event.logError ErrKind.indexErr ∈ (create_vector_store env st tmps zc).2.2.2
    ∧ (query_zone_planning_rules env st tmps zc q).1 = none := by
  have hdocs : (pages.map (fun p => splitText 1000 200 p.data)).flatten ≠ [] := by
    cases pages with
    | nil => exact absurd rfl h8
    | cons p ps =>
      simp only [List.map_cons, List.flatten_cons, ne_eq, List.append_eq_nil]
      intro hc
      exact splitText_ne_nil 1000 200 p.data hc.1
  have hcv : create_vector_store env st tmps zc
      = (false, st, (tmps ++ [tmps.length]).filter (fun m => m ≠ tmps.length),
          [.fetchCall url, .tmpWrite tmps.length, .decodeCall tmps.length,
            .tmpDelete tmps.length, .logError .indexErr]) := by
    simp [create_vector_store, h1, h3, h4, load_pdf_from_url, h5, h6, h7, hdocs]
  refine ⟨by rw [hcv], by rw [hcv]; simp, ?_⟩
  simp [query_zone_planning_rules, h1, h2, h3, hcv]

/-- Witness for C4: a state with the splitter present and an environment
where fetch and decode succeed on a one-page document. -/
theorem c4_witness :
    (create_vector_store envOk ⟨true, true, some (1000, 200), []⟩ [] "H3").1 = false
    ∧ Event.logError ErrKind.indexErr
        ∈ (create_vector_store envOk ⟨true, true, some (1000, 200), []⟩ [] "H3").2.2.2
    ∧ (query_zone_planning_rules envOk ⟨true, true, some (1000, 200), []⟩ [] "H3" "q").1
        = none :=
  c4_index_failure_propagates envOk ⟨true, true, some (1000, 200), []⟩ [] "H3" "q"
    "https://unitaryplan.aucklandcouncil.govt.nz/images/Auckland%20Unitary%20Plan%20Operative/Chapter%20H%20Zones/H3%20Residential%20-%20Single%20House%20Zone.pdf"
    [] ["Maximum height: 8 metres"] rfl rfl (by simp) rfl rfl rfl rfl (by decide)

/-- C7 counterexample: in the simple CLI's response for a failed query the
keys `result` and `error` are BOTH present (`result` is JSON `null`), so the
output is not "exactly one of result or error". -/
theorem c7_counterexample :
    "result" ∈ (simple_main_response "H3" "height rules" none).map Prod.fst
    ∧ "error" ∈ (simple_main_response "H3" "height rules" none).map Prod.fst := by
  constructor <;> simp [simple_main_response]

/-- C7 amended: the retrieval CLI's normal-path response carries `success`,
`zone_code`, `query` and exactly one of `result`/`error`; the simple CLI's
normal-path response always carries both `result` and `error`, exactly one
of which is non-null (`result` null exactly on failure, `error` null exactly
on success). -/
theorem c7_response_shape (zone_code query : String) (r : Option String) :
    ((akl_main_response zone_code query r).map Prod.fst
        = ["success", "zone_code", "query", "result"]
      ∨ (akl_main_response zone_code query r).map Prod.fst
        = ["success", "zone_code", "query", "error"])
    ∧ ¬("result" ∈ (akl_main_response zone_code query r).map Prod.fst
        ∧ "error" ∈ (akl_main_response zone_code query r).map Prod.fst)
    ∧ (simple_main_response zone_code query r).map Prod.fst
        = ["success", "zone_code", "query", "result", "error"]
    ∧ ((simple_main_response zone_code query r).lookup "result" = some JVal.null
        ↔ r = none)
    ∧ ((simple_main_response zone_code query r).lookup "error" = some JVal.null
        ↔ r.isSome = true) := by
  cases r with
  | none => by_cases ht : pyTruthy none <;>
      simp_all [akl_main_response, simple_main_response, pyTruthy, List.lookup]
  | some s => by_cases ht : pyTruthy (some s) <;>
      simp_all [akl_main_response, simple_main_response, pyTruthy, List.lookup]

/-- The first chunk of a split is always the first `L` characters. -/
theorem splitText_head (L O : Nat) (hLO : O < L) (t : List Char) :
    (splitText L O t).head? = some (t.take L) := by
  rw [splitText]
  by_cases hc : t.length ≤ L ∨ L ≤ O
  · rw [dif_pos hc]
    have ht : t.length ≤ L := hc.resolve_right (by omega)
    simp [List.take_of_length_le ht]
  · rw [dif_neg hc]
    simp

/-- Every pair of consecutive chunks overlaps in exactly `O` characters, and
every chunk except possibly the last has length exactly `L`. -/
theorem splitText_chain_aux (L O : Nat) (hLO : O < L) :
    ∀ (n : Nat) (t : List Char), t.length ≤ n →
      List.Chain' (fun c c' => c.length = L ∧ c.drop (L - O) = c'.take O)
        (splitText L O t) := by
  intro n
  induction n with
  | zero =>
    intro t ht
    rw [splitText, dif_pos (Or.inl (by omega))]
    exact List.chain'_singleton t
  | succ n ih =>
    intro t ht
    rw [splitText]
    by_cases hc : t.length ≤ L ∨ L ≤ O
    · rw [dif_pos hc]
      exact List.chain'_singleton t
    · rw [dif_neg hc]
      push_neg at hc
      obtain ⟨hL, _⟩ := hc
      refine List.chain'_cons'.mpr ⟨?_, ih _ (by rw [List.length_drop]; omega)⟩
      intro b hb
      rw [splitText_head L O hLO] at hb
      have hb2 : b = (t.drop (L - O)).take L := by
        cases hb
        rfl
      subst hb2
      refine ⟨by rw [List.length_take]; omega, ?_⟩
      rw [List.take_take, Nat.min_eq_left (Nat.le_of_lt hLO), List.drop_take]
      have : L - (L - O) = O := by omega
      rw [this]

/-- Dropping the overlap from every chunk of a split and concatenating gives
the text with its first `O` characters removed. -/
theorem splitText_drop_flatten (L O : Nat) (hLO : O < L) :
    ∀ (n : Nat) (t : List Char), t.length ≤ n → O ≤ t.length →
      ((splitText L O t).map (fun d => d.drop O)).flatten = t.drop O := by
  intro n
  induction n with
  | zero =>
    intro t ht hO
    rw [splitText, dif_pos (Or.inl (by omega))]
    simp
  | succ n ih =>
    intro t ht hO
    rw [splitText]
    by_cases hc : t.length ≤ L ∨ L ≤ O
    · rw [dif_pos hc]
      simp
    · rw [dif_neg hc]
      push_neg at hc
      obtain ⟨hL, _⟩ := hc
      simp only [List.map_cons, List.flatten_cons]
      rw [ih (t.drop (L - O)) (by rw [List.length_drop]; omega)
            (by rw [List.length_drop]; omega)]
      rw [List.drop_drop]
      have h1 : L - O + O = L := by omega
      rw [h1, List.drop_take]
      have h2 : t.drop L = (t.drop O).drop (L - O) := by
        rw [List.drop_drop]
        congr 1
        omega
      rw [h2, List.take_append_drop]

/-- Removing the overlaps from consecutive chunks and concatenating
reconstructs the original text. -/
theorem splitText_reconstruct (L O : Nat) (hLO : O < L) (t : List Char) :
    reconstructChunks O (splitText L O t) = t := by
  rw [splitText]
  by_cases hc : t.length ≤ L ∨ L ≤ O
  · rw [dif_pos hc]
    simp [reconstructChunks]
  · rw [dif_neg hc]
    push_neg at hc
    obtain ⟨hL, _⟩ := hc
    show t.take L ++ ((splitText L O (t.drop (L - O))).map (fun d => d.drop O)).flatten = t
    rw [splitText_drop_flatten L O hLO (t.drop (L - O)).length _ le_rfl
          (by rw [List.length_drop]; omega)]
    rw [List.drop_drop]
    have h1 : L - O + O = L := by omega
    rw [h1, List.take_append_drop]

/-- Every position of the text is covered by some chunk of the split. -/
theorem splitText_covers (L O : Nat) (hLO : O < L) :
    ∀ (n : Nat) (t : List Char) (i : Nat), t.length ≤ n → i < t.length →
      ∃ (d : List Char) (j : Nat), d ∈ splitText L O t ∧ d[j]? = t[i]? := by
  intro n
  induction n with
  | zero =>
    intro t i ht hi
    omega
  | succ n ih =>
    intro t i ht hi
    rw [splitText]
    by_cases hc : t.length ≤ L ∨ L ≤ O
    · rw [dif_pos hc]
      exact ⟨t, i, List.mem_singleton.mpr rfl, rfl⟩
    · rw [dif_neg hc]
      push_neg at hc
      obtain ⟨hL, _⟩ := hc
      by_cases hiL : i < L
      · exact ⟨t.take L, i, List.mem_cons_self _ _, List.getElem?_take_of_lt hiL⟩
      · obtain ⟨c, j, hm, he⟩ :=
          ih (t.drop (L - O)) (i - (L - O)) (by rw [List.length_drop]; omega)
            (by rw [List.length_drop]; omega)
        refine ⟨c, j, List.mem_cons_of_mem _ hm, ?_⟩
        rw [he, List.getElem?_drop]
        congr 1
        omega

/-- C1: chunk splitting at L=1000, O=200 is deterministic and lossless:
splitting twice yields identical chunk sequences; every character position
of the input is covered by some chunk; consecutive chunks share exactly the
200-character overlap (and every chunk except possibly the final one has
length exactly 1000); and removing the overlaps from consecutive chunks and
concatenating reconstructs the original text exactly. -/
theorem c1_chunk_splitting (t : List Char) :
    splitText 1000 200 t = splitText 1000 200 t
    ∧ (∀ i, i < t.length → ∃ (d : List Char) (j : Nat), d ∈ splitText 1000 200 t ∧ d[j]? = t[i]?)
    ∧ List.Chain' (fun c c' => c.length = 1000 ∧ c.drop 800 = c'.take 200)
        (splitText 1000 200 t)
    ∧ reconstructChunks 200 (splitText 1000 200 t) = t := by
  refine ⟨rfl, ?_, ?_, ?_⟩
  · intro i hi
    exact splitText_covers 1000 200 (by omega) t.length t i le_rfl hi
  · have h := splitText_chain_aux 1000 200 (by omega) t.length t le_rfl
    simpa using h
  · exact splitText_reconstruct 1000 200 (by omega) t
